import Mathlib

/-!
Shallow embedding of `spring-opentelemetry/src/lib.rs`: resource-attribute
assembly, signal-pipeline initialization, lifecycle bridging and shutdown
sequencing of the `OpenTelemetryPlugin`, together with the parts of the
OpenTelemetry SDK the plugin calls (`Resource` construction and merging, the
resource detectors). External effects — whether each OTLP pipeline
construction succeeds and what each provider's later `shutdown()` call
returns — are made explicit as data, and the process-wide `global` registry
is explicit state.
-/

/-- Modelled from the spec: the host's `Environment` enum
(`spring::config::env::Env`), supplied by the host and used only as a label. -/
inductive Env where
  | Dev
  | Test
  | Prod
  deriving DecidableEq

/-- Modelled from the spec: the stringification `format!("{:?}", env)` — the
derived `Debug` rendering of the host environment enum. -/
def Env.fmtDebug : Env → String
  | .Dev => "Dev"
  | .Test => "Test"
  | .Prod => "Prod"

/-- The ambient process state read by the resource detectors: the two
environment variables consulted by the SDK detectors, and the machine facts
read by the feature-gated host/OS/process detectors. -/
structure Ambient where
  otelServiceName : Option String
  otelResourceAttributes : Option String
  hostAttrs : List (String × String)
  osAttrs : List (String × String)
  processAttrs : List (String × String)
  deriving DecidableEq

/-- Compile-time context of one build. `cratePkgName` and `cratePkgVersion`
are the values of `env!("CARGO_PKG_NAME")` / `env!("CARGO_PKG_VERSION")` as
expanded inside the `spring-opentelemetry` crate (Rust expands `env!` in the
crate containing the macro call, not in the final application);
`appPkgName` / `appPkgVersion` are the package constants of the embedding
application, carried so statements can compare the two; `otelSdkVersion` is
the SDK crate's own version constant used by `TelemetryResourceDetector`;
the three booleans are the `more-resource`, `jaeger` and `zipkin` cargo
features. -/
structure BuildCtx where
  appPkgName : String
  appPkgVersion : String
  cratePkgName : String
  cratePkgVersion : String
  otelSdkVersion : String
  moreResource : Bool
  jaeger : Bool
  zipkin : Bool
  deriving DecidableEq

/-- Keyed insert into an attribute map: the SDK stores resource attributes in
a map keyed by attribute key, so a later insert for an existing key
overwrites that key's value. -/
def insertAttr : List (String × String) → String → String → List (String × String)
  | [], k, v => [(k, v)]
  | (k', v') :: rest, k, v =>
    if k' = k then (k, v) :: rest else (k', v') :: insertAttr rest k v

/-- Inserts every pair of `kvs`, in order, into the map `m`. -/
def insertAll (m : List (String × String)) (kvs : List (String × String)) :
    List (String × String) :=
  kvs.foldl (fun acc kv => insertAttr acc kv.1 kv.2) m

/-- Value stored under key `k`, if any. -/
def lookupAttr (m : List (String × String)) (k : String) : Option String :=
  match m.find? (fun kv => kv.1 == k) with
  | some kv => some kv.2
  | none => none

/-- `opentelemetry_sdk::Resource`: an attribute map plus an optional schema
URL. -/
structure Resource where
  attrs : List (String × String)
  schemaUrl : Option String
  deriving DecidableEq

/-- `Resource::new`: attribute map built from the pairs (duplicate keys keep
the last occurrence), no schema URL. -/
def Resource.new (kvs : List (String × String)) : Resource :=
  ⟨insertAll [] kvs, none⟩

/-- `Resource::from_schema_url`: like `Resource::new` but tagged with the
given schema URL (empty string meaning none). -/
def Resource.from_schema_url (kvs : List (String × String)) (schemaUrl : String) :
    Resource :=
  ⟨insertAll [] kvs, if schemaUrl = "" then none else some schemaUrl⟩

/-- `Resource::merge`: if either side is empty the other is returned;
otherwise the union of the two attribute maps in which, on key collision, the
`other` (updating) resource's value takes precedence — per the SDK
implementation (`self`'s attributes are inserted first, then `other`'s
overwrite) and the OpenTelemetry specification ("the value of the updating
resource MUST be picked"). The schema URL is kept when the two sides agree
(or only one has one) and dropped when they conflict. -/
def Resource.merge (self other : Resource) : Resource :=
  if self.attrs = [] then other
  else if other.attrs = [] then self
  else
    { attrs := insertAll (insertAll [] self.attrs) other.attrs
      schemaUrl :=
        match self.schemaUrl, other.schemaUrl with
        | some a, some b => if a = b then some a else none
        | some a, none => some a
        | none, some b => some b
        | none, none => none }

/-- `opentelemetry_sdk::resource::ResourceDetector`: `detect(timeout)`, with
the ambient process state it reads made explicit. -/
structure Detector where
  detect : Nat → Ambient → Resource

/-- `Resource::from_detectors`: runs the detectors in order over an initially
empty resource, inserting each detector's attributes (a later detector
overwrites an earlier one on key collision); the result carries no schema
URL. -/
def Resource.from_detectors (timeout : Nat) (detectors : List Detector)
    (amb : Ambient) : Resource :=
  ⟨detectors.foldl (fun acc d => insertAll acc ((d.detect timeout amb).attrs)) [], none⟩

/-- `opentelemetry_semantic_conventions::attribute::SERVICE_NAME`. -/
def SERVICE_NAME : String := "service.name"

/-- `opentelemetry_semantic_conventions::attribute::SERVICE_VERSION`. -/
def SERVICE_VERSION : String := "service.version"

/-- `opentelemetry_semantic_conventions::attribute::DEPLOYMENT_ENVIRONMENT_NAME`. -/
def DEPLOYMENT_ENVIRONMENT_NAME : String := "deployment.environment.name"

/-- `opentelemetry_semantic_conventions::SCHEMA_URL` — the semconv release the
attribute constants above come from. -/
def SCHEMA_URL : String := "https://opentelemetry.io/schemas/1.27.0"

/-- Parser for `OTEL_RESOURCE_ATTRIBUTES`: comma-separated `key=value`
entries, keys and values trimmed; an entry without `=` or whose value
contains another `=` is discarded. -/
def construct_otel_resources (s : String) : List (String × String) :=
  (s.splitOn (",")).filterMap fun entry =>
    match entry.splitOn ("=") with
    | [k, v] => some (k.trim, v.trim)
    | _ => none

/-- `resource::EnvResourceDetector::new()`: parses `OTEL_RESOURCE_ATTRIBUTES`
when set and non-empty; otherwise contributes an empty resource. -/
def EnvResourceDetector : Detector :=
  ⟨fun _ amb =>
    match amb.otelResourceAttributes with
    | some s => if s = "" then Resource.new [] else Resource.new (construct_otel_resources s)
    | none => Resource.new []⟩

/-- The `or_else` arm of `SdkProvidedResourceDetector`'s `service.name`
chain: the `service.name` entry of `EnvResourceDetector`'s zero-timeout
detection of `OTEL_RESOURCE_ATTRIBUTES`, with `"unknown_service"` as the
final `unwrap_or_else` default. -/
def sdkProvidedServiceNameFallback (amb : Ambient) : String :=
  match lookupAttr (EnvResourceDetector.detect 0 amb).attrs SERVICE_NAME with
  | some v => v
  | none => ("unknown_service")

/-- `resource::SdkProvidedResourceDetector`: supplies `service.name` from the
`OTEL_SERVICE_NAME` environment variable when set and non-empty; otherwise
falls back to the `service.name` entry detected from
`OTEL_RESOURCE_ATTRIBUTES`, and finally to `"unknown_service"`. -/
def SdkProvidedResourceDetector : Detector :=
  ⟨fun _ amb =>
    Resource.new [(SERVICE_NAME,
      match amb.otelServiceName with
      | some s => if s = "" then sdkProvidedServiceNameFallback amb else s
      | none => sdkProvidedServiceNameFallback amb)]⟩

/-- `resource::TelemetryResourceDetector`: the SDK's self-describing
attributes (`telemetry.sdk.version` is the SDK crate's own version
constant). -/
def TelemetryResourceDetector (b : BuildCtx) : Detector :=
  ⟨fun _ _ =>
    Resource.new [("telemetry.sdk.name", "opentelemetry"),
                  ("telemetry.sdk.language", "rust"),
                  ("telemetry.sdk.version", b.otelSdkVersion)]⟩

/-- `opentelemetry_resource_detectors::HostResourceDetector` (feature-gated);
its output is a machine fact, modelled as ambient state. -/
def HostResourceDetector : Detector := ⟨fun _ amb => Resource.new amb.hostAttrs⟩

/-- `opentelemetry_resource_detectors::OsResourceDetector` (feature-gated). -/
def OsResourceDetector : Detector := ⟨fun _ amb => Resource.new amb.osAttrs⟩

/-- `opentelemetry_resource_detectors::ProcessResourceDetector` (feature-gated). -/
def ProcessResourceDetector : Detector := ⟨fun _ amb => Resource.new amb.processAttrs⟩

/-- `OpenTelemetryPlugin::app_resource`: the application attribute subset —
`service.name` and `service.version` are the `env!` package constants as
expanded in the defining crate, `deployment.environment.name` is the
stringified environment — tagged with the semconv schema URL. -/
def OpenTelemetryPlugin.app_resource (b : BuildCtx) (env : Env) : Resource :=
  Resource.from_schema_url
    [(SERVICE_NAME, b.cratePkgName),
     (SERVICE_VERSION, b.cratePkgVersion),
     (DEPLOYMENT_ENVIRONMENT_NAME, env.fmtDebug)]
    SCHEMA_URL

/-- The ordered detector list of `OpenTelemetryPlugin::infra_resource`: the
three `opentelemetry_resource_detectors` detectors when the `more-resource`
feature is compiled in, then the SDK-provided, telemetry and environment
detectors. -/
def infraDetectors (b : BuildCtx) : List Detector :=
  (if b.moreResource then
    [HostResourceDetector, OsResourceDetector, ProcessResourceDetector]
   else []) ++
  [SdkProvidedResourceDetector, TelemetryResourceDetector b, EnvResourceDetector]

/-- `OpenTelemetryPlugin::infra_resource`: runs the ordered detector list with
a zero-duration timeout budget (`Duration::from_secs(0)`). -/
def OpenTelemetryPlugin.infra_resource (b : BuildCtx) (amb : Ambient) : Resource :=
  Resource.from_detectors 0 (infraDetectors b) amb

/-- `OpenTelemetryPlugin::get_resource_attr`: merges the application subset
with the infrastructure subset (`app.merge(&infra)`). -/
def OpenTelemetryPlugin.get_resource_attr (b : BuildCtx) (env : Env) (amb : Ambient) :
    Resource :=
  (OpenTelemetryPlugin.app_resource b env).merge (OpenTelemetryPlugin.infra_resource b amb)

deriving instance DecidableEq for Except

/-- `opentelemetry_sdk::logs::LoggerProvider` as the plugin observes it: the
resource it was built with and what its later `shutdown()` call returns. -/
structure LoggerProvider where
  resource : Resource
  shutdownOutcome : Except String Unit
  deriving DecidableEq

/-- `opentelemetry_sdk::metrics::SdkMeterProvider`, likewise. -/
structure SdkMeterProvider where
  resource : Resource
  shutdownOutcome : Except String Unit
  deriving DecidableEq

/-- The trace provider data the plugin attaches (`with_trace_config`). -/
structure TracerProviderData where
  resource : Resource
  deriving DecidableEq

/-- A named tracer obtained from a provider via `provider.tracer(name)`. -/
structure Tracer where
  name : String
  provider : TracerProviderData
  deriving DecidableEq

/-- Outcomes of the calls into the external world during one run: whether each
OTLP pipeline construction (`install_batch` / `build`) succeeds, and what each
provider's `shutdown()` will later return. -/
structure ExternalWorld where
  logsBuild : Except String Unit
  metricsBuild : Except String Unit
  tracesBuild : Except String Unit
  meterShutdownOutcome : Except String Unit
  logShutdownOutcome : Except String Unit
  deriving DecidableEq

/-- Result of a Rust computation that may abort the process (`expect` on a
failed construction): a fatal abort with the `expect` message, or a value.
There is no error constructor — a construction failure cannot be returned to
the caller. -/
inductive FatalOr (α : Type) where
  | fatal (msg : String)
  | ok (a : α)
  deriving DecidableEq

/-- The kinds of text-map propagator the plugin may install. -/
inductive PropagatorKind where
  | traceContext
  | jaeger
  | zipkin
  deriving DecidableEq

/-- The process-wide `opentelemetry::global` registry slots the plugin
touches. -/
structure GlobalState where
  textMapPropagator : Option PropagatorKind
  tracerProvider : Option TracerProviderData
  meterProvider : Option SdkMeterProvider
  deriving DecidableEq

/-- `OpenTelemetryPlugin::init_logs`: builds the OTLP logging pipeline with
the assembled resource; `expect` aborts the process when construction
fails. -/
def OpenTelemetryPlugin.init_logs (b : BuildCtx) (env : Env) (amb : Ambient)
    (w : ExternalWorld) : FatalOr LoggerProvider :=
  match w.logsBuild with
  | .error _ => .fatal ("build LogProvider failed")
  | .ok _ => .ok ⟨OpenTelemetryPlugin.get_resource_attr b env amb, w.logShutdownOutcome⟩

/-- `OpenTelemetryPlugin::init_metrics`: builds the OTLP metrics pipeline with
the assembled resource, registers the provider in the global registry and
returns it; `expect` aborts the process when construction fails. -/
def OpenTelemetryPlugin.init_metrics (b : BuildCtx) (env : Env) (amb : Ambient)
    (w : ExternalWorld) (g : GlobalState) : GlobalState × FatalOr SdkMeterProvider :=
  match w.metricsBuild with
  | .error _ => (g, .fatal ("build MeterProvider failed"))
  | .ok _ =>
    let provider : SdkMeterProvider :=
      ⟨OpenTelemetryPlugin.get_resource_attr b env amb, w.meterShutdownOutcome⟩
    ({ g with meterProvider := some provider }, .ok provider)

/-- `OpenTelemetryPlugin::init_tracer`: installs the text-map propagator (W3C
trace-context, then the Jaeger and Zipkin propagators when those features are
compiled in — the last `set_text_map_propagator` call wins), then builds the
OTLP trace pipeline with the assembled resource; on success it obtains a
tracer named after the defining crate's package and installs the provider in
the global registry; `expect` aborts when construction fails. -/
def OpenTelemetryPlugin.init_tracer (b : BuildCtx) (env : Env) (amb : Ambient)
    (w : ExternalWorld) (g : GlobalState) : GlobalState × FatalOr Tracer :=
  let g1 := { g with textMapPropagator := some PropagatorKind.traceContext }
  let g2 := if b.jaeger then { g1 with textMapPropagator := some PropagatorKind.jaeger } else g1
  let g3 := if b.zipkin then { g2 with textMapPropagator := some PropagatorKind.zipkin } else g2
  match w.tracesBuild with
  | .error _ => (g3, .fatal ("build TraceProvider failed"))
  | .ok _ =>
    let provider : TracerProviderData := ⟨OpenTelemetryPlugin.get_resource_attr b env amb⟩
    let tracer : Tracer := ⟨b.cratePkgName, provider⟩
    ({ g3 with tracerProvider := some provider }, .ok tracer)

/-- The propagator left installed by `init_tracer`: the last source-order
`set_text_map_propagator` call among the compiled-in ones. -/
def chosenPropagator (b : BuildCtx) : PropagatorKind :=
  if b.zipkin then PropagatorKind.zipkin
  else if b.jaeger then PropagatorKind.jaeger
  else PropagatorKind.traceContext

/-- The interception layers the plugin registers on the host builder. -/
inductive Layer where
  | trace (t : Tracer)
  | log (lp : LoggerProvider)
  | metric (mp : SdkMeterProvider)
  deriving DecidableEq

/-- Modelled from the spec: the host `AppBuilder` — the environment accessor,
the ordered list of registered interception layers, and the registered
shutdown hooks (each hook captures the two provider handles that
`OpenTelemetryPlugin::shutdown` receives). -/
structure AppBuilder where
  env : Env
  layers : List Layer
  shutdownHooks : List (SdkMeterProvider × LoggerProvider)
  deriving DecidableEq

/-- Modelled from the spec: `AppBuilder::add_layer` appends an interception
layer to the host's event-processing pipeline. -/
def AppBuilder.add_layer (app : AppBuilder) (l : Layer) : AppBuilder :=
  { app with layers := app.layers ++ [l] }

/-- Modelled from the spec: `AppBuilder::add_shutdown_hook` appends a shutdown
hook. -/
def AppBuilder.add_shutdown_hook (app : AppBuilder)
    (h : SdkMeterProvider × LoggerProvider) : AppBuilder :=
  { app with shutdownHooks := app.shutdownHooks ++ [h] }

/-- `OpenTelemetryPlugin::immediately`: the capability flag telling the host
to run `immediately_build` during bootstrap, before deferred plugins. -/
def OpenTelemetryPlugin.immediately : Bool := true

/-- `OpenTelemetryPlugin::immediately_build`: initializes metrics, logs and
traces (in that source order), then registers the trace, log and metric
interception layers and the shutdown hook on the host builder. A fatal init
aborts the whole bootstrap. -/
def OpenTelemetryPlugin.immediately_build (b : BuildCtx) (amb : Ambient)
    (w : ExternalWorld) (app : AppBuilder) (g : GlobalState) :
    FatalOr (AppBuilder × GlobalState) :=
  let env := app.env
  match OpenTelemetryPlugin.init_metrics b env amb w g with
  | (_, .fatal m) => .fatal m
  | (g1, .ok meterProvider) =>
    match OpenTelemetryPlugin.init_logs b env amb w with
    | .fatal m => .fatal m
    | .ok logProvider =>
      match OpenTelemetryPlugin.init_tracer b env amb w g1 with
      | (_, .fatal m) => .fatal m
      | (g2, .ok tracer) =>
        let app1 := app.add_layer (Layer.trace tracer)
        let app2 := app1.add_layer (Layer.log logProvider)
        let app3 := app2.add_layer (Layer.metric meterProvider)
        let app4 := app3.add_shutdown_hook (meterProvider, logProvider)
        FatalOr.ok (app4, g2)

/-- The observable steps of `OpenTelemetryPlugin::shutdown`. -/
inductive ShutdownStep where
  | tracerTeardown
  | meterClose
  | logClose
  deriving DecidableEq

/-- A `spring::error` value as produced by `anyhow`'s `.context(...)`: the
added context message and the underlying cause. -/
structure SpringError where
  ctx : String
  cause : String
  deriving DecidableEq

/-- `OpenTelemetryPlugin::shutdown`: tears down the global tracer provider,
then closes the meter provider, then the log provider; the `?` operator
returns at the first failing close. The first component records which steps
were attempted, in order. -/
def OpenTelemetryPlugin.shutdown (mp : SdkMeterProvider) (lp : LoggerProvider) :
    List ShutdownStep × Except SpringError String :=
  match mp.shutdownOutcome with
  | .error e =>
    ([ShutdownStep.tracerTeardown, ShutdownStep.meterClose],
     Except.error ⟨"shutdown meter provider failed", e⟩)
  | .ok _ =>
    match lp.shutdownOutcome with
    | .error e =>
      ([ShutdownStep.tracerTeardown, ShutdownStep.meterClose, ShutdownStep.logClose],
       Except.error ⟨"shutdown log provider failed", e⟩)
    | .ok _ =>
      ([ShutdownStep.tracerTeardown, ShutdownStep.meterClose, ShutdownStep.logClose],
       Except.ok ("OpenTelemetry shutdown successful"))

/-- A concrete build context: an embedding application named
`checkout-service` linking the `spring-opentelemetry` crate, default
features. -/
def sampleCtx : BuildCtx :=
  { appPkgName := "checkout-service", appPkgVersion := "1.2.3",
    cratePkgName := "spring-opentelemetry", cratePkgVersion := "0.4.0",
    otelSdkVersion := "0.24.1", moreResource := false, jaeger := false,
    zipkin := false }

/-- A concrete ambient state with neither `OTEL_SERVICE_NAME` nor
`OTEL_RESOURCE_ATTRIBUTES` set. -/
def sampleAmbient : Ambient :=
  { otelServiceName := none, otelResourceAttributes := none,
    hostAttrs := [], osAttrs := [], processAttrs := [] }

/-- A world in which every pipeline construction and provider close
succeeds. -/
def okWorld : ExternalWorld :=
  { logsBuild := .ok (), metricsBuild := .ok (), tracesBuild := .ok (),
    meterShutdownOutcome := .ok (), logShutdownOutcome := .ok () }

/-- A world in which every pipeline construction fails. -/
def failWorld : ExternalWorld :=
  { logsBuild := .error ("endpoint"), metricsBuild := .error ("endpoint"),
    tracesBuild := .error ("endpoint"),
    meterShutdownOutcome := .ok (), logShutdownOutcome := .ok () }

/-- An initial global registry with every slot empty. -/
def sampleGlobal : GlobalState :=
  { textMapPropagator := none, tracerProvider := none, meterProvider := none }

/-- A fresh host builder in the development environment. -/
def sampleApp : AppBuilder := { env := Env.Dev, layers := [], shutdownHooks := [] }

/-- The resource assembled in the sample context. -/
def sampleResource : Resource :=
  OpenTelemetryPlugin.get_resource_attr sampleCtx Env.Dev sampleAmbient

/-- A meter provider whose close succeeds. -/
def healthyMeter : SdkMeterProvider := ⟨sampleResource, .ok ()⟩

/-- A log provider whose close succeeds. -/
def healthyLogger : LoggerProvider := ⟨sampleResource, .ok ()⟩

/-- A meter provider whose close fails. -/
def failingMeter : SdkMeterProvider := ⟨sampleResource, .error ("meter exporter flush failed")⟩

/-- Claim C5: shutdown performs its steps sequentially in the order
tracer-provider teardown, then meter-provider close, then log-provider close;
the tracer teardown happens unconditionally and first; and when both provider
closes succeed, shutdown returns the success status. -/
theorem shutdown_step_order_and_success (mp : SdkMeterProvider) (lp : LoggerProvider) :
    ((OpenTelemetryPlugin.shutdown mp lp).1.head? = some ShutdownStep.tracerTeardown) ∧
    ((OpenTelemetryPlugin.shutdown mp lp).1 =
        [ShutdownStep.tracerTeardown, ShutdownStep.meterClose] ∨
     (OpenTelemetryPlugin.shutdown mp lp).1 =
        [ShutdownStep.tracerTeardown, ShutdownStep.meterClose, ShutdownStep.logClose]) ∧
    (mp.shutdownOutcome = .ok () → lp.shutdownOutcome = .ok () →
      OpenTelemetryPlugin.shutdown mp lp =
        ([ShutdownStep.tracerTeardown, ShutdownStep.meterClose, ShutdownStep.logClose],
         Except.ok ("OpenTelemetry shutdown successful"))) := by
  cases h1 : mp.shutdownOutcome with
  | error e => simp [OpenTelemetryPlugin.shutdown, h1]
  | ok u =>
    cases h2 : lp.shutdownOutcome with
    | error e => simp [OpenTelemetryPlugin.shutdown, h1, h2]
    | ok u2 => simp [OpenTelemetryPlugin.shutdown, h1, h2]

/-- Claim C5 witness: with both providers healthy, shutdown runs the three
steps in order and returns the success status. -/
theorem shutdown_step_order_and_success_witness :
    OpenTelemetryPlugin.shutdown healthyMeter healthyLogger =
      ([ShutdownStep.tracerTeardown, ShutdownStep.meterClose, ShutdownStep.logClose],
       Except.ok ("OpenTelemetry shutdown successful")) :=
  (shutdown_step_order_and_success healthyMeter healthyLogger).2.2 rfl rfl

/-- Claim C1 is false as stated: with a meter close that fails and a log close
that would succeed, shutdown never attempts the log provider's close — the
step list stops after the meter close — contrary to the claimed
capture-and-continue behavior. -/
theorem shutdown_meter_failure_log_close_cex :
    (OpenTelemetryPlugin.shutdown failingMeter healthyLogger).1 =
      [ShutdownStep.tracerTeardown, ShutdownStep.meterClose] ∧
    ShutdownStep.logClose ∉ (OpenTelemetryPlugin.shutdown failingMeter healthyLogger).1 := by
  constructor
  · rfl
  · decide

/-- Claim C1 amended: if the meter provider's close fails, shutdown
short-circuits — the tracer teardown and the meter close are the only
attempted steps, the log close is never attempted — and the returned error
identifies the metrics step ("shutdown meter provider failed") wrapping the
underlying cause. -/
theorem shutdown_meter_failure_short_circuits (mp : SdkMeterProvider)
    (lp : LoggerProvider) (e : String) (h : mp.shutdownOutcome = .error e) :
    OpenTelemetryPlugin.shutdown mp lp =
      ([ShutdownStep.tracerTeardown, ShutdownStep.meterClose],
       Except.error ⟨"shutdown meter provider failed", e⟩) := by
  unfold OpenTelemetryPlugin.shutdown
  rw [h]

/-- Claim C1 amended, witness: concrete failing meter close together with a
healthy log provider. -/
theorem shutdown_meter_failure_short_circuits_witness :
    OpenTelemetryPlugin.shutdown failingMeter healthyLogger =
      ([ShutdownStep.tracerTeardown, ShutdownStep.meterClose],
       Except.error ⟨"shutdown meter provider failed", "meter exporter flush failed"⟩) :=
  shutdown_meter_failure_short_circuits failingMeter healthyLogger
    ("meter exporter flush failed") rfl

/-- Claim C2 fails on the code: `get_resource_attr` computes
`app.merge(&infra)` and `Resource::merge` gives precedence to the updating
(infrastructure) side, so the `service.name` supplied by
`SdkProvidedResourceDetector` (here `"unknown_service"`, with
`OTEL_SERVICE_NAME` unset) overrides the application-declared value in the
assembled set. -/
theorem merged_resource_detector_overrides_app_service_name :
    lookupAttr (OpenTelemetryPlugin.app_resource sampleCtx Env.Dev).attrs SERVICE_NAME =
      some ("spring-opentelemetry") ∧
    lookupAttr (OpenTelemetryPlugin.get_resource_attr sampleCtx Env.Dev sampleAmbient).attrs
        SERVICE_NAME = some ("unknown_service") ∧
    some ("unknown_service") ≠ some ("spring-opentelemetry") := by
  refine ⟨by decide, by decide, by decide⟩

/-- Claim C3 is false as stated: for an embedding application whose package
name is `checkout-service`, the resource's `service.name`/`service.version`
and the tracer name are the `spring-opentelemetry` crate's own package
constants — `env!` expands in the defining crate — not the application's. -/
theorem app_resource_not_embedding_app_cex :
    sampleCtx.appPkgName = "checkout-service" ∧
    lookupAttr (OpenTelemetryPlugin.app_resource sampleCtx Env.Dev).attrs SERVICE_NAME ≠
      some sampleCtx.appPkgName ∧
    lookupAttr (OpenTelemetryPlugin.app_resource sampleCtx Env.Dev).attrs SERVICE_VERSION ≠
      some sampleCtx.appPkgVersion ∧
    (OpenTelemetryPlugin.init_tracer sampleCtx Env.Dev sampleAmbient okWorld sampleGlobal).2 =
      FatalOr.ok ⟨"spring-opentelemetry", ⟨sampleResource⟩⟩ ∧
    ("spring-opentelemetry" : String) ≠ sampleCtx.appPkgName := by
  refine ⟨rfl, by decide, by decide, rfl, by decide⟩

/-- Claim C3 amended: the `service.name` and `service.version` attributes of
the application subset are the package constants of the defining
`spring-opentelemetry` crate, and the tracer returned by a successful trace
initialization is named after that crate's package name. -/
theorem app_resource_uses_defining_crate_constants (b : BuildCtx) (env : Env)
    (amb : Ambient) (w : ExternalWorld) (g : GlobalState)
    (h : w.tracesBuild = .ok ()) :
    lookupAttr (OpenTelemetryPlugin.app_resource b env).attrs SERVICE_NAME =
      some b.cratePkgName ∧
    lookupAttr (OpenTelemetryPlugin.app_resource b env).attrs SERVICE_VERSION =
      some b.cratePkgVersion ∧
    (OpenTelemetryPlugin.init_tracer b env amb w g).2 =
      FatalOr.ok ⟨b.cratePkgName, ⟨OpenTelemetryPlugin.get_resource_attr b env amb⟩⟩ := by
  refine ⟨rfl, rfl, ?_⟩
  simp [OpenTelemetryPlugin.init_tracer, h]

/-- Claim C3 amended, witness at the sample build context. -/
theorem app_resource_uses_defining_crate_constants_witness :
    lookupAttr (OpenTelemetryPlugin.app_resource sampleCtx Env.Prod).attrs SERVICE_NAME =
      some sampleCtx.cratePkgName ∧
    lookupAttr (OpenTelemetryPlugin.app_resource sampleCtx Env.Prod).attrs SERVICE_VERSION =
      some sampleCtx.cratePkgVersion ∧
    (OpenTelemetryPlugin.init_tracer sampleCtx Env.Prod sampleAmbient okWorld sampleGlobal).2 =
      FatalOr.ok ⟨sampleCtx.cratePkgName,
        ⟨OpenTelemetryPlugin.get_resource_attr sampleCtx Env.Prod sampleAmbient⟩⟩ :=
  app_resource_uses_defining_crate_constants sampleCtx Env.Prod sampleAmbient okWorld
    sampleGlobal rfl

/-- Claim C4: for each of the three signal initializations, a failure to
construct the exporter pipeline is fatal and process-aborting — the init
yields the corresponding `expect` abort and never a handle, degraded provider
or error value (the result type has no error constructor). -/
theorem init_construction_failure_is_fatal (b : BuildCtx) (env : Env) (amb : Ambient)
    (w : ExternalWorld) (g : GlobalState) :
    (∀ e, w.logsBuild = .error e →
      OpenTelemetryPlugin.init_logs b env amb w = .fatal ("build LogProvider failed")) ∧
    (∀ e, w.metricsBuild = .error e →
      OpenTelemetryPlugin.init_metrics b env amb w g =
        (g, .fatal ("build MeterProvider failed"))) ∧
    (∀ e, w.tracesBuild = .error e →
      (OpenTelemetryPlugin.init_tracer b env amb w g).2 =
        .fatal ("build TraceProvider failed")) := by
  refine ⟨?_, ?_, ?_⟩
  · intro e h
    simp [OpenTelemetryPlugin.init_logs, h]
  · intro e h
    simp [OpenTelemetryPlugin.init_metrics, h]
  · intro e h
    simp [OpenTelemetryPlugin.init_tracer, h]

/-- Claim C4 witness: in a world where every pipeline construction fails, all
three initializations abort with their `expect` messages. -/
theorem init_construction_failure_is_fatal_witness :
    OpenTelemetryPlugin.init_logs sampleCtx Env.Dev sampleAmbient failWorld =
      .fatal ("build LogProvider failed") ∧
    OpenTelemetryPlugin.init_metrics sampleCtx Env.Dev sampleAmbient failWorld sampleGlobal =
      (sampleGlobal, .fatal ("build MeterProvider failed")) ∧
    (OpenTelemetryPlugin.init_tracer sampleCtx Env.Dev sampleAmbient failWorld sampleGlobal).2 =
      .fatal ("build TraceProvider failed") :=
  ⟨(init_construction_failure_is_fatal sampleCtx Env.Dev sampleAmbient failWorld
      sampleGlobal).1 ("endpoint") rfl,
   (init_construction_failure_is_fatal sampleCtx Env.Dev sampleAmbient failWorld
      sampleGlobal).2.1 ("endpoint") rfl,
   (init_construction_failure_is_fatal sampleCtx Env.Dev sampleAmbient failWorld
      sampleGlobal).2.2 ("endpoint") rfl⟩

/-- Claim C6: the application subset has exactly the three keys
`service.name`, `service.version` and `deployment.environment.name` (in that
order), the last carrying the stringified environment; with zero detectors
the infrastructure subset is empty and the assembled resource equals the
application subset, hence is non-empty and contains the three keys. -/
theorem app_resource_exactly_three_keys_and_zero_detectors (b : BuildCtx) (env : Env)
    (amb : Ambient) :
    (OpenTelemetryPlugin.app_resource b env).attrs =
      [(SERVICE_NAME, b.cratePkgName), (SERVICE_VERSION, b.cratePkgVersion),
       (DEPLOYMENT_ENVIRONMENT_NAME, env.fmtDebug)] ∧
    (Resource.from_detectors 0 [] amb).attrs = [] ∧
    Resource.merge (OpenTelemetryPlugin.app_resource b env) (Resource.from_detectors 0 [] amb) =
      OpenTelemetryPlugin.app_resource b env ∧
    (OpenTelemetryPlugin.app_resource b env).attrs ≠ [] := by
  refine ⟨rfl, rfl, rfl, by simp [OpenTelemetryPlugin.app_resource,
    Resource.from_schema_url, insertAll, insertAttr, SERVICE_NAME, SERVICE_VERSION,
    DEPLOYMENT_ENVIRONMENT_NAME]⟩

/-- Claim C7: every pipeline initialization attaches exactly the assembled
resource `get_resource_attr env`: whenever an init succeeds, its provider
carries that set, so the resources received by the trace, metric and log
pipelines are equal to each other and to the single assembled set. -/
theorem resource_attached_uniformly (b : BuildCtx) (env : Env) (amb : Ambient)
    (w : ExternalWorld) (g : GlobalState) :
    (∀ lp, OpenTelemetryPlugin.init_logs b env amb w = .ok lp →
      lp.resource = OpenTelemetryPlugin.get_resource_attr b env amb) ∧
    (∀ g1 mp, OpenTelemetryPlugin.init_metrics b env amb w g = (g1, .ok mp) →
      mp.resource = OpenTelemetryPlugin.get_resource_attr b env amb) ∧
    (∀ g2 t, OpenTelemetryPlugin.init_tracer b env amb w g = (g2, .ok t) →
      t.provider.resource = OpenTelemetryPlugin.get_resource_attr b env amb) := by
  refine ⟨?_, ?_, ?_⟩
  · intro lp h
    cases hb : w.logsBuild with
    | error e => simp [OpenTelemetryPlugin.init_logs, hb] at h
    | ok u =>
      simp [OpenTelemetryPlugin.init_logs, hb] at h
      rw [← h]
  · intro g1 mp h
    cases hb : w.metricsBuild with
    | error e => simp [OpenTelemetryPlugin.init_metrics, hb] at h
    | ok u =>
      simp [OpenTelemetryPlugin.init_metrics, hb] at h
      rw [← h.2]
  · intro g2 t h
    cases hb : w.tracesBuild with
    | error e => simp [OpenTelemetryPlugin.init_tracer, hb] at h
    | ok u =>
      simp [OpenTelemetryPlugin.init_tracer, hb] at h
      rw [← h.2]

/-- Claim C7 witness: in the all-success sample world the log provider built
by `init_logs` carries exactly the assembled resource. -/
theorem resource_attached_uniformly_witness :
    healthyLogger.resource =
      OpenTelemetryPlugin.get_resource_attr sampleCtx Env.Dev sampleAmbient :=
  (resource_attached_uniformly sampleCtx Env.Dev sampleAmbient okWorld sampleGlobal).1
    healthyLogger rfl

/-- Claim C8: infrastructure detection runs the ordered detector list under a
zero-duration timeout budget, and assembly has no error path: a detector
whose sources are absent contributes an empty set (the environment detector)
or its hard default (`"unknown_service"` once both `OTEL_SERVICE_NAME` and
the `OTEL_RESOURCE_ATTRIBUTES` fallback are absent), and any detector
contributing an empty set leaves the assembled result unchanged — it never
aborts assembly, which returns a set for every input. -/
theorem infra_detection_total_ordered_zero_timeout (b : BuildCtx) (amb : Ambient) :
    OpenTelemetryPlugin.infra_resource b amb =
      Resource.from_detectors 0 (infraDetectors b) amb ∧
    (amb.otelResourceAttributes = none →
      EnvResourceDetector.detect 0 amb = Resource.new []) ∧
    (amb.otelServiceName = none → amb.otelResourceAttributes = none →
      SdkProvidedResourceDetector.detect 0 amb =
        Resource.new [(SERVICE_NAME, "unknown_service")]) ∧
    (∀ (ds1 ds2 : List Detector) (d : Detector), (d.detect 0 amb).attrs = [] →
      Resource.from_detectors 0 (ds1 ++ d :: ds2) amb =
        Resource.from_detectors 0 (ds1 ++ ds2) amb) := by
  refine ⟨rfl, ?_, ?_, ?_⟩
  · intro h
    simp [EnvResourceDetector, h]
  · intro h1 h2
    simp [SdkProvidedResourceDetector, sdkProvidedServiceNameFallback,
      EnvResourceDetector, Resource.new, insertAll, lookupAttr, h1, h2]
  · intro ds1 ds2 d h
    simp only [Resource.from_detectors, List.foldl_append, List.foldl_cons, h]
    rfl

/-- Claim C8 witness: in the sample ambient state (no environment variables
set) the environment-variable detector contributes the empty set and the
SDK-provided detector contributes its `"unknown_service"` default. -/
theorem infra_detection_total_ordered_zero_timeout_witness :
    EnvResourceDetector.detect 0 sampleAmbient = Resource.new [] ∧
    SdkProvidedResourceDetector.detect 0 sampleAmbient =
      Resource.new [(SERVICE_NAME, "unknown_service")] :=
  ⟨(infra_detection_total_ordered_zero_timeout sampleCtx sampleAmbient).2.1 rfl,
   (infra_detection_total_ordered_zero_timeout sampleCtx sampleAmbient).2.2.1 rfl rfl⟩

/-- Claim C9 (the `AppBuilder` registration semantics are modelled from the
spec): when all three pipeline constructions succeed, `immediately_build`
registers the three interception layers on the host builder in the order
trace layer, log layer, metric layer, followed by the shutdown hook capturing
the meter and log providers — all within the bootstrap step — and the
plugin's `immediately` capability flag is `true`, telling the host to run
this step before deferred plugins and application code. -/
theorem immediately_build_registers_layers_in_order (b : BuildCtx) (amb : Ambient)
    (w : ExternalWorld) (app : AppBuilder) (g : GlobalState)
    (hm : w.metricsBuild = .ok ()) (hl : w.logsBuild = .ok ())
    (ht : w.tracesBuild = .ok ()) :
    OpenTelemetryPlugin.immediately_build b amb w app g =
      FatalOr.ok
        ({ app with
            layers := app.layers ++
              [Layer.trace ⟨b.cratePkgName,
                  ⟨OpenTelemetryPlugin.get_resource_attr b app.env amb⟩⟩,
               Layer.log ⟨OpenTelemetryPlugin.get_resource_attr b app.env amb,
                  w.logShutdownOutcome⟩,
               Layer.metric ⟨OpenTelemetryPlugin.get_resource_attr b app.env amb,
                  w.meterShutdownOutcome⟩],
            shutdownHooks := app.shutdownHooks ++
              [(⟨OpenTelemetryPlugin.get_resource_attr b app.env amb,
                  w.meterShutdownOutcome⟩,
                ⟨OpenTelemetryPlugin.get_resource_attr b app.env amb,
                  w.logShutdownOutcome⟩)] },
         { textMapPropagator := some (chosenPropagator b),
           tracerProvider :=
             some ⟨OpenTelemetryPlugin.get_resource_attr b app.env amb⟩,
           meterProvider :=
             some ⟨OpenTelemetryPlugin.get_resource_attr b app.env amb,
               w.meterShutdownOutcome⟩ }) ∧
    OpenTelemetryPlugin.immediately = true := by
  cases hj : b.jaeger <;> cases hz : b.zipkin <;>
    simp [OpenTelemetryPlugin.immediately_build, OpenTelemetryPlugin.init_metrics,
      OpenTelemetryPlugin.init_logs, OpenTelemetryPlugin.init_tracer,
      AppBuilder.add_layer, AppBuilder.add_shutdown_hook, chosenPropagator,
      OpenTelemetryPlugin.immediately, hm, hl, ht, hj, hz]

/-- Claim C9 witness: the sample bootstrap registers exactly the trace, log
and metric layers (in order) and the shutdown hook. -/
theorem immediately_build_registers_layers_in_order_witness :
    OpenTelemetryPlugin.immediately_build sampleCtx sampleAmbient okWorld sampleApp
        sampleGlobal =
      FatalOr.ok
        ({ env := Env.Dev,
           layers := [Layer.trace ⟨"spring-opentelemetry", ⟨sampleResource⟩⟩,
                      Layer.log ⟨sampleResource, Except.ok ()⟩,
                      Layer.metric ⟨sampleResource, Except.ok ()⟩],
           shutdownHooks := [(⟨sampleResource, Except.ok ()⟩,
                              ⟨sampleResource, Except.ok ()⟩)] },
         { textMapPropagator := some PropagatorKind.traceContext,
           tracerProvider := some ⟨sampleResource⟩,
           meterProvider := some ⟨sampleResource, Except.ok ()⟩ }) ∧
    OpenTelemetryPlugin.immediately = true :=
  immediately_build_registers_layers_in_order sampleCtx sampleAmbient okWorld sampleApp
    sampleGlobal rfl rfl rfl

/-- Claim C10: `init_tracer` installs the process-wide text-map propagator
before the exporter pipeline is constructed — on construction failure the
propagator slot has already been replaced while the tracer-provider slot is
untouched and the process aborts — and the global tracer provider is
installed only after construction succeeds. -/
theorem init_tracer_propagator_before_build (b : BuildCtx) (env : Env) (amb : Ambient)
    (w : ExternalWorld) (g : GlobalState) :
    ((OpenTelemetryPlugin.init_tracer b env amb w g).1.textMapPropagator =
      some (chosenPropagator b)) ∧
    (∀ e, w.tracesBuild = .error e →
      (OpenTelemetryPlugin.init_tracer b env amb w g).1.tracerProvider =
          g.tracerProvider ∧
      (OpenTelemetryPlugin.init_tracer b env amb w g).2 =
          .fatal ("build TraceProvider failed")) ∧
    (w.tracesBuild = .ok () →
      (OpenTelemetryPlugin.init_tracer b env amb w g).1.tracerProvider =
        some ⟨OpenTelemetryPlugin.get_resource_attr b env amb⟩) := by
  refine ⟨?_, ?_, ?_⟩
  · cases hb : w.tracesBuild <;> cases hj : b.jaeger <;> cases hz : b.zipkin <;>
      simp [OpenTelemetryPlugin.init_tracer, chosenPropagator, hb, hj, hz]
  · intro e h
    cases hj : b.jaeger <;> cases hz : b.zipkin <;>
      simp [OpenTelemetryPlugin.init_tracer, h, hj, hz]
  · intro h
    cases hj : b.jaeger <;> cases hz : b.zipkin <;>
      simp [OpenTelemetryPlugin.init_tracer, h, hj, hz]

/-- Claim C10 witness: with a failing trace-pipeline construction the
propagator has been replaced while the tracer-provider slot stays empty, and
on the all-success world the provider is installed. -/
theorem init_tracer_propagator_before_build_witness :
    (OpenTelemetryPlugin.init_tracer sampleCtx Env.Dev sampleAmbient failWorld
        sampleGlobal).1.textMapPropagator = some (chosenPropagator sampleCtx) ∧
    (OpenTelemetryPlugin.init_tracer sampleCtx Env.Dev sampleAmbient failWorld
        sampleGlobal).1.tracerProvider = sampleGlobal.tracerProvider ∧
    (OpenTelemetryPlugin.init_tracer sampleCtx Env.Dev sampleAmbient okWorld
        sampleGlobal).1.tracerProvider = some ⟨sampleResource⟩ :=
  ⟨(init_tracer_propagator_before_build sampleCtx Env.Dev sampleAmbient failWorld
      sampleGlobal).1,
   ((init_tracer_propagator_before_build sampleCtx Env.Dev sampleAmbient failWorld
      sampleGlobal).2.1 ("endpoint") rfl).1,
   (init_tracer_propagator_before_build sampleCtx Env.Dev sampleAmbient okWorld
      sampleGlobal).2.2 rfl⟩
